import Mathlib

/-!
Verification of the telegram-bot-fsm engine (package `fsm`).

The definitions below are a shallow embedding of the Go source:
`Update`, `getChatId`, `extractCommand`, `MessageConfig`, `Transition`,
`StateHandler`, `BotFsm`, `HandleUpdate`, `GoTo`, `getStateMessageConfigs`
come from the engine file; `ChatStatesStore` and the default persistence
handlers come from `defaults.go`.

Effectful calls (persistence save, keyboard removal, message sending) are
made observable as a trace of `Action`s; the outcomes of the fallible
collaborators (the load result, whether the save fails, whether the
keyboard-removal send fails) are passed in as parameters, so `HandleUpdate`
and `GoTo` are pure functions from those oracles to a result and a trace.
-/

set_option maxRecDepth 4096

namespace Fsm

/-- `tgbotapi.Chat`: only the `ID` field is read by the engine. -/
structure Chat where
  id : Int
deriving DecidableEq

/-- `tgbotapi.Message`: the engine reads `Chat` (nilable) and `Text`. -/
structure Message where
  chat : Option Chat
  text : String
deriving DecidableEq

/-- `tgbotapi.CallbackQuery`: the engine reads the nested `Message` (nilable). -/
structure CallbackQuery where
  message : Option Message
deriving DecidableEq

/-- `tgbotapi.Update`: the engine reads `Message` and `CallbackQuery`, both nilable. -/
structure Update where
  message : Option Message
  callbackQuery : Option CallbackQuery
deriving DecidableEq

/-- `fsm.MessageConfig`. The opaque `ReplyMarkup interface{}` value is modelled
as `Option String` (`none` = Go `nil`). -/
structure MessageConfig where
  text : String
  replyMarkup : Option String
  parseMode : String
  extraTexts : List String
  removeKeyboard : Bool
deriving DecidableEq

/-- Zero value of `fsm.MessageConfig`. -/
def emptyMessageConfig : MessageConfig :=
  { text := "", replyMarkup := none, parseMode := "", extraTexts := [], removeKeyboard := false }

/-- `MessageConfig.Empty()`: a config is empty iff its `Text` is empty. -/
def MessageConfig.Empty (m : MessageConfig) : Bool :=
  m.text == ""

/-- `fsm.Transition`: next state name (empty means stay) plus an embedded `MessageConfig`. -/
structure Transition where
  state : String
  messageConfig : MessageConfig
deriving DecidableEq

/-- Zero value `Transition{}` used by the engine for unregistered commands. -/
def emptyTransition : Transition :=
  { state := "", messageConfig := emptyMessageConfig }

/-- A `fsm.StateHandler`: `MessageFn` and `TransitionFn` (the `ctx` argument is
dropped, it is only threaded through opaquely). The optional
`RemoveKeyboardManager` capability is modelled as a `Bool` field, `false`
when the handler does not implement it. -/
structure StateHandler (T : Type) where
  messageFn : T → MessageConfig
  transitionFn : Update → T → Transition × T
  removeKeyboardAfter : Bool

/-- `fsm.BotFsm` with its options: state configs, command table, the optional
unknown-command message provider and the keyboard-removal placeholder text.
The Go maps are modelled as functions into `Option`. -/
structure BotFsm (T : Type) where
  configs : String → Option (StateHandler T)
  commands : String → Option (Update → T → Transition × T)
  undefinedCommandMessageFn : Option (T → MessageConfig)
  removeKeyboardTempText : String

/-- `fsm.UndefinedState`. -/
def UndefinedState : String := "undefined"

/-- `getChatId`: chat id from `Message.Chat`, falling back to
`CallbackQuery.Message.Chat` when the former yields `0`. -/
def getChatId (u : Update) : Int :=
  let fromMessage : Int :=
    match u.message with
    | some m => match m.chat with
      | some c => c.id
      | none => 0
    | none => 0
  if fromMessage = 0 then
    match u.callbackQuery with
    | some cq => match cq.message with
      | some m => match m.chat with
        | some c => c.id
        | none => 0
      | none => 0
    | none => 0
  else fromMessage

/-- `extractCommand`: returns the command keyword without the `/` marker, or
`""` when the update is not a command. The Go condition is
`update.Message != nil && strings.HasPrefix(text, "/") && len(strings.Split(text, " ")) == 1`;
`HasPrefix(text, "/")` holds exactly when the first character is `/`, and
`len(strings.Split(text, " ")) == 1` holds exactly when the text contains no
space character (the split separator is the single space), so both are
rendered on the character list of the text. `strings.TrimPrefix(text, "/")`
is the remaining character list. -/
def extractCommand (u : Update) : String :=
  match u.message with
  | some m =>
    match m.text.data with
    | c :: rest => if c = '/' ∧ rest.contains ' ' = false then String.mk rest else ""
    | [] => ""
  | none => ""

/-- `resumeState` normalization: an empty loaded state name is replaced by
`UndefinedState`. -/
def normalizeState (s : String) : String :=
  if s = "" then UndefinedState else s

/-- The dispatch-state override in `HandleUpdate`: when a command was
extracted, the state used to resolve the current handler becomes
`UndefinedState`. -/
def dispatchState (command loaded : String) : String :=
  if command = "" then loaded else UndefinedState

/-- The transition-selection block of `HandleUpdate`: a command is looked up
in the command table (an unregistered command yields the zero `Transition{}`
and leaves the data untouched); a non-command runs the current state
handler's `TransitionFn`. -/
def dispatchedTransition {T : Type} (commands : String → Option (Update → T → Transition × T))
    (u : Update) (command : String) (sh : StateHandler T) (d : T) : Transition × T :=
  if command = "" then sh.transitionFn u d
  else
    match commands command with
    | some h => h u d
    | none => (emptyTransition, d)

/-- The message-resolution block of `HandleUpdate`: a non-empty transition
`MessageConfig` is used verbatim; otherwise the target state's `MessageFn` is
called, except that when a command was extracted and the transition carried
no target state, the unknown-command provider (when configured, i.e. non-nil)
replaces the target's `MessageFn`. `Option.getD` renders the Go nil-check on
`undefinedCommandMessageFn`. -/
def resolveMessageConfig {T : Type} (uFn : Option (T → MessageConfig)) (command : String)
    (tr : Transition) (ncfg : StateHandler T) (nd : T) : MessageConfig :=
  if tr.messageConfig.Empty = true then
    (if command ≠ "" ∧ tr.state = "" then uFn.getD ncfg.messageFn else ncfg.messageFn) nd
  else tr.messageConfig

/-- A concrete outbound `tgbotapi.MessageConfig` as built by the engine. -/
structure TgMessageConfig where
  chatId : Int
  text : String
  parseMode : String
  replyMarkup : Option String
deriving DecidableEq

/-- `getStateMessageConfigs`: the primary message followed by one message per
entry of `ExtraTexts`, each copying the primary's `ParseMode` and
`ReplyMarkup` (the Go code assigns `ReplyMarkup` only when non-nil, which on
the `Option` model is the identity). -/
def getStateMessageConfigs (chatId : Int) (mc : MessageConfig) : List TgMessageConfig :=
  let msg : TgMessageConfig :=
    { chatId := chatId, text := mc.text, parseMode := mc.parseMode, replyMarkup := mc.replyMarkup }
  msg :: mc.extraTexts.map fun t =>
    { chatId := chatId, text := t, parseMode := msg.parseMode, replyMarkup := msg.replyMarkup }

/-- Observable effects of one engine invocation, in execution order. -/
inductive Action (T : Type) where
  | removeKeyboard
  | save (chatId : Int) (state : String) (data : T)
  | send (msg : TgMessageConfig)
deriving DecidableEq

/-- The error values `HandleUpdate` and `GoTo` can return. -/
inductive FsmError where
  | noChatId
  | loadState (msg : String)
  | saveState
  | deleteKeyboard
  | currentStateConfigNotFound (state : String)
  | nextStateConfigNotFound (state : String)
deriving DecidableEq

/-- The tail of `HandleUpdate` after the message config is resolved: the
keyboard-removal compensating action runs first when the current (dispatch)
state handler declares `RemoveKeyboardAfter` or the resolved config requests
removal (a failing removal send aborts with `DeleteKeyboardError`); then the
new record is saved (a failing save aborts with a wrapped error); then the
composed messages are sent. -/
def composeAndCommit {T : Type} (chatId : Int) (sh : StateHandler T) (mc : MessageConfig)
    (newState : String) (newData : T) (saveFails removeFails : Bool) :
    Except FsmError Unit × List (Action T) :=
  let removal : Bool := sh.removeKeyboardAfter || mc.removeKeyboard
  if removal = true ∧ removeFails = true then
    (Except.error FsmError.deleteKeyboard, [Action.removeKeyboard])
  else
    let pre : List (Action T) := if removal = true then [Action.removeKeyboard] else []
    if saveFails = true then
      (Except.error FsmError.saveState, pre ++ [Action.save chatId newState newData])
    else
      (Except.ok (), pre ++ [Action.save chatId newState newData]
        ++ (getStateMessageConfigs chatId mc).map Action.send)

/-- The body of `HandleUpdate` after the current state handler is resolved:
run the dispatched transition, resolve the next state (empty target means
stay in the dispatch state), require its config, resolve the outbound
message config, then commit. -/
def dispatchAndResolve {T : Type} (b : BotFsm T) (u : Update) (chatId : Int) (state : String)
    (sh : StateHandler T) (d0 : T) (saveFails removeFails : Bool) :
    Except FsmError Unit × List (Action T) :=
  let td := dispatchedTransition b.commands u (extractCommand u) sh d0
  let newState := if td.1.state = "" then state else td.1.state
  match b.configs newState with
  | none => (Except.error (FsmError.nextStateConfigNotFound newState), [])
  | some ncfg =>
    composeAndCommit chatId sh
      (resolveMessageConfig b.undefinedCommandMessageFn (extractCommand u) td.1 ncfg td.2)
      newState td.2 saveFails removeFails

/-- `BotFsm.HandleUpdate`. `loadRes` is the outcome of the persistence load
(`resumeState`), `saveFails` whether the persistence save errors, and
`removeFails` whether the keyboard-removal placeholder send errors. -/
def HandleUpdate {T : Type} (b : BotFsm T) (u : Update) (loadRes : Except String (String × T))
    (saveFails removeFails : Bool) : Except FsmError Unit × List (Action T) :=
  if getChatId u = 0 then (Except.error FsmError.noChatId, [])
  else
    match loadRes with
    | Except.error e => (Except.error (FsmError.loadState e), [])
    | Except.ok sd =>
      let state := dispatchState (extractCommand u) (normalizeState sd.1)
      match b.configs state with
      | none => (Except.error (FsmError.currentStateConfigNotFound state), [])
      | some sh => dispatchAndResolve b u (getChatId u) state sh sd.2 saveFails removeFails

/-- The message resolution of `GoTo`: transition config verbatim when
non-empty, otherwise the target state's `MessageFn`. -/
def goToMessageConfig {T : Type} (tr : Transition) (ncfg : StateHandler T) (d : T) : MessageConfig :=
  if tr.messageConfig.Empty = true then ncfg.messageFn d else tr.messageConfig

/-- `BotFsm.GoTo`: requires the target state's config; saves first; then runs
keyboard removal only when the resolved config requests it; then sends. -/
def GoTo {T : Type} (b : BotFsm T) (chatId : Int) (tr : Transition) (d : T)
    (saveFails removeFails : Bool) : Except FsmError Unit × List (Action T) :=
  match b.configs tr.state with
  | none => (Except.error (FsmError.nextStateConfigNotFound tr.state), [])
  | some ncfg =>
    let mc := goToMessageConfig tr ncfg d
    let tr1 : List (Action T) := [Action.save chatId tr.state d]
    if saveFails = true then (Except.error FsmError.saveState, tr1)
    else if mc.removeKeyboard = true then
      if removeFails = true then (Except.error FsmError.deleteKeyboard, tr1 ++ [Action.removeKeyboard])
      else (Except.ok (), tr1 ++ [Action.removeKeyboard]
        ++ (getStateMessageConfigs chatId mc).map Action.send)
    else (Except.ok (), tr1 ++ (getStateMessageConfigs chatId mc).map Action.send)

/-- `ChatState` from `defaults.go`. -/
structure ChatState (T : Type) where
  chatId : Int
  name : String
  data : T
deriving DecidableEq

/-- `ChatStatesStore`: the in-memory `map[int64]*ChatState[T]`. -/
def ChatStatesStore (T : Type) := Int → Option (ChatState T)

/-- `ChatStatesStore.put`. -/
def storePut {T : Type} (s : ChatStatesStore T) (key : Int) (cs : ChatState T) :
    ChatStatesStore T :=
  fun k => if k = key then some cs else s k

/-- The default load handler from `defaultPersistenceHandlers`: returns the
stored name and data, or zero values for an unseen chat id; never errors. -/
def defaultLoadStateFn {T : Type} [Inhabited T] (s : ChatStatesStore T) (chatId : Int) :
    String × T × Option String :=
  match s chatId with
  | some cs => (cs.name, cs.data, none)
  | none => ("", default, none)

/-- The default save handler from `defaultPersistenceHandlers`: stores a new
`ChatState` under the chat id; never errors. -/
def defaultSaveStateFn {T : Type} (s : ChatStatesStore T) (chatId : Int) (name : String)
    (d : T) : ChatStatesStore T × Option String :=
  (storePut s chatId { chatId := chatId, name := name, data := d }, none)

/-- Apply a sequence of saves `(chatId, name, data)` to a store. -/
def applySaves {T : Type} (s : ChatStatesStore T) (l : List (Int × String × T)) :
    ChatStatesStore T :=
  l.foldl (fun st o => (defaultSaveStateFn st o.1 o.2.1 o.2.2).1) s

/-- Texts of the messages sent in a trace, in order. -/
def sendTexts {T : Type} : List (Action T) → List String
  | [] => []
  | Action.send m :: rest => m.text :: sendTexts rest
  | Action.removeKeyboard :: rest => sendTexts rest
  | Action.save _ _ _ :: rest => sendTexts rest

/-- The (state, data) pairs passed to the persistence save in a trace. -/
def savedPairs {T : Type} : List (Action T) → List (String × T)
  | [] => []
  | Action.save _ st d :: rest => (st, d) :: savedPairs rest
  | Action.removeKeyboard :: rest => savedPairs rest
  | Action.send _ :: rest => savedPairs rest

/-- Holds when the first send of the trace, if any, is preceded by a save. -/
def noSendBeforeSave {T : Type} : List (Action T) → Bool
  | [] => true
  | Action.send _ :: _ => false
  | Action.save _ _ _ :: _ => true
  | Action.removeKeyboard :: rest => noSendBeforeSave rest

/-- Replace the `MessageFn` of the handler registered under `st`. -/
def setMessageFn {T : Type} (b : BotFsm T) (st : String) (g : T → MessageConfig) : BotFsm T :=
  { b with configs := fun s =>
      match b.configs s with
      | some h => some (if s = st then { h with messageFn := g } else h)
      | none => none }

/-- Replace the `RemoveKeyboardAfter` capability of the handler registered under `st`. -/
def setRemoveKeyboardAfter {T : Type} (b : BotFsm T) (st : String) (v : Bool) : BotFsm T :=
  { b with configs := fun s =>
      match b.configs s with
      | some h => some (if s = st then { h with removeKeyboardAfter := v } else h)
      | none => none }

/-! ### Concrete fixtures used by counterexamples and witnesses -/

/-- A handler whose `MessageFn` returns a fixed text, whose `TransitionFn`
returns the zero transition, with a configurable removal capability. -/
def plainHandler (t : String) (rka : Bool) : StateHandler Nat :=
  { messageFn := fun _ => { emptyMessageConfig with text := t },
    transitionFn := fun _ d => (emptyTransition, d),
    removeKeyboardAfter := rka }

/-- A plain text update for chat 7. -/
def updText (text : String) : Update :=
  { message := some { chat := some { id := 7 }, text := text }, callbackQuery := none }

def updStart : Update := updText "/start"

def updStartNow : Update := updText "/start now"

def updTab : Update := updText "/start\tnow"

def updSlash : Update := updText "/"

/-! ### Observer lemmas -/

lemma sendTexts_append {T : Type} (l1 l2 : List (Action T)) :
    sendTexts (l1 ++ l2) = sendTexts l1 ++ sendTexts l2 := by
  induction l1 with
  | nil => rfl
  | cons a rest ih => cases a <;> simp [sendTexts, ih]

lemma sendTexts_map_send {T : Type} (l : List TgMessageConfig) :
    sendTexts (l.map (Action.send (T := T))) = l.map fun m => m.text := by
  induction l with
  | nil => rfl
  | cons a rest ih => simp [sendTexts, ih]

lemma savedPairs_append {T : Type} (l1 l2 : List (Action T)) :
    savedPairs (l1 ++ l2) = savedPairs l1 ++ savedPairs l2 := by
  induction l1 with
  | nil => rfl
  | cons a rest ih => cases a <;> simp [savedPairs, ih]

lemma savedPairs_map_send {T : Type} (l : List TgMessageConfig) :
    savedPairs (l.map (Action.send (T := T))) = [] := by
  induction l with
  | nil => rfl
  | cons a rest ih => simp [savedPairs, ih]

lemma getStateMessageConfigs_texts (chatId : Int) (mc : MessageConfig) :
    (getStateMessageConfigs chatId mc).map (fun m => m.text) = mc.text :: mc.extraTexts := by
  unfold getStateMessageConfigs
  simp only [List.map_cons, List.map_map]
  refine congrArg (List.cons mc.text) ?_
  have h2 : ∀ t ∈ mc.extraTexts,
      (((fun m => m.text) ∘ fun t =>
        ({ chatId := chatId, text := t, parseMode := mc.parseMode,
           replyMarkup := mc.replyMarkup } : TgMessageConfig)) t) = id t := fun t _ => rfl
  rw [List.map_congr_left h2, List.map_id]

/-! ### Claim theorems -/

/-- Claim C8: for every non-empty `MessageConfig`, the composed outbound
sequence has exactly `1 + |ExtraTexts|` messages, is non-empty, starts with
the primary text followed by the extra texts in order, and every message
carries the primary's `ParseMode` and `ReplyMarkup`. -/
theorem claim8_message_composition (chatId : Int) (mc : MessageConfig)
    (_hne : mc.Empty = false) :
    (getStateMessageConfigs chatId mc).length = 1 + mc.extraTexts.length
    ∧ getStateMessageConfigs chatId mc ≠ []
    ∧ (getStateMessageConfigs chatId mc).map (fun m => m.text) = mc.text :: mc.extraTexts
    ∧ ∀ m ∈ getStateMessageConfigs chatId mc,
        m.parseMode = mc.parseMode ∧ m.replyMarkup = mc.replyMarkup := by
  refine ⟨?_, ?_, getStateMessageConfigs_texts chatId mc, ?_⟩
  · unfold getStateMessageConfigs
    simp [Nat.add_comm]
  · unfold getStateMessageConfigs
    simp
  · intro m hm
    unfold getStateMessageConfigs at hm
    rcases List.mem_cons.mp hm with h | h
    · subst h
      exact ⟨rfl, rfl⟩
    · rcases List.mem_map.mp h with ⟨t, _, rfl⟩
      exact ⟨rfl, rfl⟩

/-- Witness for C8 at a concrete non-empty config with two extra texts. -/
def mcWitness : MessageConfig :=
  { text := "hello", replyMarkup := some "kb", parseMode := "HTML",
    extraTexts := ["one", "two"], removeKeyboard := false }

/-- Claim C8 witness: the hypothesis holds at `mcWitness` and the composed
sequence there has length three. -/
theorem claim8_message_composition_witness :
    mcWitness.Empty = false ∧ (getStateMessageConfigs 5 mcWitness).length = 1 + mcWitness.extraTexts.length :=
  ⟨by decide, (claim8_message_composition 5 mcWitness (by decide)).1⟩

lemma defaultSave_other_preserves {T : Type} (s : ChatStatesStore T) (k id : Int)
    (n : String) (d : T) (h : k ≠ id) : (defaultSaveStateFn s k n d).1 id = s id := by
  unfold defaultSaveStateFn storePut
  simp only
  rw [if_neg (Ne.symm h)]

/-- Claim C9: for the default in-memory persistence handlers, saving
`(name, d)` for `id` and then performing any sequence of saves to other chat
ids leaves a load for `id` returning exactly `(name, d)` with no error. -/
lemma applySaves_preserves {T : Type} [Inhabited T] (id : Int) (name : String) (d : T) :
    ∀ (others : List (Int × String × T)) (s0 : ChatStatesStore T),
      s0 id = some { chatId := id, name := name, data := d } →
      (∀ o ∈ others, o.1 ≠ id) →
      defaultLoadStateFn (applySaves s0 others) id = (name, d, none) := by
  intro others
  induction others with
  | nil =>
    intro s0 hs0 _
    unfold applySaves defaultLoadStateFn
    simp [hs0]
  | cons o rest ih =>
    intro s0 hs0 hall
    unfold applySaves
    simp only [List.foldl_cons]
    have hstep : (defaultSaveStateFn s0 o.1 o.2.1 o.2.2).1 id
        = some { chatId := id, name := name, data := d } := by
      rw [defaultSave_other_preserves _ _ _ _ _ (hall o (List.mem_cons_self o rest))]
      exact hs0
    have h3 := ih (defaultSaveStateFn s0 o.1 o.2.1 o.2.2).1 hstep
      (fun o2 ho2 => hall o2 (List.mem_cons_of_mem o ho2))
    unfold applySaves at h3
    exact h3

/-- Claim C9: for the default in-memory persistence handlers, saving
`(name, d)` for `id` and then performing any sequence of saves to other chat
ids leaves a load for `id` returning exactly `(name, d)` with no error. -/
theorem claim9_persistence_roundtrip {T : Type} [Inhabited T] (s : ChatStatesStore T)
    (id : Int) (name : String) (d : T) (others : List (Int × String × T))
    (h : ∀ o ∈ others, o.1 ≠ id) :
    defaultLoadStateFn (applySaves (defaultSaveStateFn s id name d).1 others) id
      = (name, d, none) := by
  have base : (defaultSaveStateFn s id name d).1 id = some { chatId := id, name := name, data := d } := by
    unfold defaultSaveStateFn storePut
    simp
  exact applySaves_preserves id name d others _ base h

/-- Claim C9 witness: a concrete run with two interleaved saves to other ids. -/
theorem claim9_persistence_roundtrip_witness :
    (∀ o ∈ [((2 : Int), "a", (5 : Nat)), (3, "b", 6)], o.1 ≠ 1)
    ∧ defaultLoadStateFn (applySaves (defaultSaveStateFn (fun _ => none) 1 "x" 4).1
        [(2, "a", 5), (3, "b", 6)]) 1 = ("x", 4, none) :=
  ⟨by decide, claim9_persistence_roundtrip (fun _ => none) 1 "x" 4 [(2, "a", 5), (3, "b", 6)] (by decide)⟩

/-! ### Decomposition lemmas for `HandleUpdate` -/

lemma handleUpdate_eq_dispatch {T : Type} (b : BotFsm T) (u : Update) (s0 : String) (d0 : T)
    (loadRes : Except String (String × T)) (sh : StateHandler T) (sf rf : Bool)
    (hchat : getChatId u ≠ 0)
    (hload : loadRes = Except.ok (s0, d0))
    (hsh : b.configs (dispatchState (extractCommand u) (normalizeState s0)) = some sh) :
    HandleUpdate b u loadRes sf rf
      = dispatchAndResolve b u (getChatId u)
          (dispatchState (extractCommand u) (normalizeState s0)) sh d0 sf rf := by
  subst hload
  unfold HandleUpdate
  rw [if_neg hchat]
  simp only [hsh]

lemma dispatchAndResolve_eq_commit {T : Type} (b : BotFsm T) (u : Update) (chatId : Int)
    (state : String) (sh : StateHandler T) (d0 : T) (sf rf : Bool) (tr : Transition) (nd : T)
    (ncfg : StateHandler T)
    (htd : dispatchedTransition b.commands u (extractCommand u) sh d0 = (tr, nd))
    (hncfg : b.configs (if tr.state = "" then state else tr.state) = some ncfg) :
    dispatchAndResolve b u chatId state sh d0 sf rf
      = composeAndCommit chatId sh
          (resolveMessageConfig b.undefinedCommandMessageFn (extractCommand u) tr ncfg nd)
          (if tr.state = "" then state else tr.state) nd sf rf := by
  unfold dispatchAndResolve
  simp only [htd, hncfg]

lemma dispatchAndResolve_eq_error {T : Type} (b : BotFsm T) (u : Update) (chatId : Int)
    (state : String) (sh : StateHandler T) (d0 : T) (sf rf : Bool) (tr : Transition) (nd : T)
    (htd : dispatchedTransition b.commands u (extractCommand u) sh d0 = (tr, nd))
    (hncfg : b.configs (if tr.state = "" then state else tr.state) = none) :
    dispatchAndResolve b u chatId state sh d0 sf rf
      = (Except.error (FsmError.nextStateConfigNotFound (if tr.state = "" then state else tr.state)), []) := by
  unfold dispatchAndResolve
  simp only [htd, hncfg]

lemma sendTexts_map_send_of {T U : Type} (f : U → TgMessageConfig) (l : List U) :
    sendTexts (l.map fun t => Action.send (T := T) (f t)) = l.map fun t => (f t).text := by
  induction l with
  | nil => rfl
  | cons a rest ih => simp [sendTexts, ih]

lemma savedPairs_map_send_of {T U : Type} (f : U → TgMessageConfig) (l : List U) :
    savedPairs (l.map fun t => Action.send (T := T) (f t)) = [] := by
  induction l with
  | nil => rfl
  | cons a rest ih => simp [savedPairs, ih]

lemma sendTexts_map_send_comp {T U : Type} (f : U → TgMessageConfig) (l : List U) :
    sendTexts (l.map (Action.send (T := T) ∘ f)) = l.map fun t => (f t).text :=
  sendTexts_map_send_of f l

lemma savedPairs_map_send_comp {T U : Type} (f : U → TgMessageConfig) (l : List U) :
    savedPairs (l.map (Action.send (T := T) ∘ f)) = [] :=
  savedPairs_map_send_of f l

lemma composeAndCommit_removal_mem {T : Type} (chatId : Int) (sh : StateHandler T)
    (mc : MessageConfig) (newState : String) (newData : T) (sf rf : Bool) :
    Action.removeKeyboard ∈ (composeAndCommit chatId sh mc newState newData sf rf).2
      ↔ (sh.removeKeyboardAfter || mc.removeKeyboard) = true := by
  simp only [composeAndCommit]
  split_ifs <;> simp_all

lemma composeAndCommit_savedPairs {T : Type} (chatId : Int) (sh : StateHandler T)
    (mc : MessageConfig) (newState : String) (newData : T) (sf rf : Bool) :
    ∀ p ∈ savedPairs (composeAndCommit chatId sh mc newState newData sf rf).2,
      p = (newState, newData) := by
  intro p hp
  simp only [composeAndCommit, getStateMessageConfigs] at hp
  split_ifs at hp
    <;> simp_all [savedPairs_append, savedPairs, savedPairs_map_send_comp]

lemma composeAndCommit_sendTexts {T : Type} (chatId : Int) (sh : StateHandler T)
    (mc : MessageConfig) (newState : String) (newData : T) (sf rf : Bool) :
    sendTexts (composeAndCommit chatId sh mc newState newData sf rf).2 = []
    ∨ sendTexts (composeAndCommit chatId sh mc newState newData sf rf).2
        = mc.text :: mc.extraTexts := by
  simp only [composeAndCommit]
  split_ifs
    <;> simp_all [sendTexts_append, sendTexts, getStateMessageConfigs,
          sendTexts_map_send_comp]

lemma composeAndCommit_noSendBeforeSave {T : Type} (chatId : Int) (sh : StateHandler T)
    (mc : MessageConfig) (newState : String) (newData : T) (sf rf : Bool) :
    noSendBeforeSave (composeAndCommit chatId sh mc newState newData sf rf).2 = true := by
  simp only [composeAndCommit]
  split_ifs <;> simp_all [noSendBeforeSave]

lemma composeAndCommit_saveFails {T : Type} (chatId : Int) (sh : StateHandler T)
    (mc : MessageConfig) (newState : String) (newData : T) (rf : Bool) :
    (composeAndCommit chatId sh mc newState newData true rf).1 ≠ Except.ok ()
    ∧ sendTexts (composeAndCommit chatId sh mc newState newData true rf).2 = [] := by
  simp only [composeAndCommit]
  split_ifs <;> simp_all [sendTexts_append, sendTexts]

/-! ### More fixtures: concrete bots over `T = Nat` -/

/-- A command handler returning the zero transition (no target, no message). -/
def emptyCmdHandler : Update → Nat → Transition × Nat := fun _ d => (emptyTransition, d)

/-- A command handler returning a stay-transition with a fixed text. -/
def textCmdHandler (t : String) : Update → Nat → Transition × Nat :=
  fun _ d => ({ state := "", messageConfig := { emptyMessageConfig with text := t } }, d)

/-- A bot with `undefined` and `menu` states, no registered commands and no
unknown-command provider. -/
def botA : BotFsm Nat :=
  { configs := fun s =>
      if s = UndefinedState then some (plainHandler "undef default" false)
      else if s = "menu" then some (plainHandler "menu default" false)
      else none,
    commands := fun _ => none,
    undefinedCommandMessageFn := none,
    removeKeyboardTempText := "Thinking..." }

/-- A bot with a registered `faq` command whose handler returns the empty
transition, and an unknown-command provider replying `UNK`. -/
def botB : BotFsm Nat :=
  { configs := fun s =>
      if s = UndefinedState then some (plainHandler "undef default" false) else none,
    commands := fun c => if c = "faq" then some emptyCmdHandler else none,
    undefinedCommandMessageFn := some fun _ => { emptyMessageConfig with text := "UNK" },
    removeKeyboardTempText := "Thinking..." }

/-- A bot with a registered `go` command whose handler returns the empty
transition, an unknown-command provider replying `SPECIAL`, and a target
default message `TARGETDEFAULT`. -/
def botC : BotFsm Nat :=
  { configs := fun s =>
      if s = UndefinedState then some (plainHandler "TARGETDEFAULT" false) else none,
    commands := fun c => if c = "go" then some emptyCmdHandler else none,
    undefinedCommandMessageFn := some fun _ => { emptyMessageConfig with text := "SPECIAL" },
    removeKeyboardTempText := "Thinking..." }

/-- A bot whose `menu` state declares keyboard removal on leave, and a
registered `faq` command replying `x` without a state switch. -/
def botD : BotFsm Nat :=
  { configs := fun s =>
      if s = UndefinedState then some (plainHandler "u" false)
      else if s = "menu" then some (plainHandler "m" true)
      else none,
    commands := fun c => if c = "faq" then some (textCmdHandler "x") else none,
    undefinedCommandMessageFn := none,
    removeKeyboardTempText := "Thinking..." }

/-- Claim C1 counterexample: the conversation was loaded in state `menu`, an
unregistered command `/oops` arrives (no-op transition with empty
nextStateId), and `HandleUpdate` persists the dispatch-forced `undefined`
state, not the loaded pre-event state `menu`. -/
theorem claim1_counterexample :
    savedPairs (HandleUpdate botA (updText "/oops") (Except.ok ("menu", 0)) false false).2
      = [(UndefinedState, 0)]
    ∧ UndefinedState ≠ "menu" := by
  decide

/-- Claim C1 (amended): for every update classified as a command whose
dispatched transition has an empty nextStateId (including the no-op
transition of an unregistered command), every state persisted by
`HandleUpdate` is the dispatch-forced `Undefined` state — the command
override rewrites the stay-state fallback, and hence the persisted state,
not only which handler runs. -/
theorem claim1_command_stay_persists_undefined {T : Type} (b : BotFsm T) (u : Update)
    (s0 : String) (d0 : T) (loadRes : Except String (String × T)) (sh : StateHandler T)
    (tr : Transition) (nd : T) (sf rf : Bool)
    (hchat : getChatId u ≠ 0)
    (hload : loadRes = Except.ok (s0, d0))
    (hsh : b.configs (dispatchState (extractCommand u) (normalizeState s0)) = some sh)
    (htd : dispatchedTransition b.commands u (extractCommand u) sh d0 = (tr, nd))
    (hcmd : extractCommand u ≠ "")
    (hstay : tr.state = "") :
    ∀ p ∈ savedPairs (HandleUpdate b u loadRes sf rf).2, p.1 = UndefinedState := by
  intro p hp
  rw [handleUpdate_eq_dispatch b u s0 d0 loadRes sh sf rf hchat hload hsh] at hp
  have hds : dispatchState (extractCommand u) (normalizeState s0) = UndefinedState := by
    unfold dispatchState
    rw [if_neg hcmd]
  rw [hds] at hp
  have hif : (if tr.state = "" then UndefinedState else tr.state) = UndefinedState := by
    rw [hstay]
    simp
  cases hcfg2 : b.configs UndefinedState with
  | none =>
    rw [dispatchAndResolve_eq_error b u (getChatId u) UndefinedState sh d0 sf rf tr nd htd
      (by rw [hif]; exact hcfg2)] at hp
    simp [savedPairs] at hp
  | some ncfg =>
    rw [dispatchAndResolve_eq_commit b u (getChatId u) UndefinedState sh d0 sf rf tr nd ncfg htd
      (by rw [hif]; exact hcfg2)] at hp
    have h2 := composeAndCommit_savedPairs (getChatId u) sh
      (resolveMessageConfig b.undefinedCommandMessageFn (extractCommand u) tr ncfg nd)
      (if tr.state = "" then UndefinedState else tr.state) nd sf rf p hp
    rw [h2]
    exact hif

/-- Claim C1 witness: the amended claim applied to the `/oops` run of
`claim1_counterexample`. -/
theorem claim1_command_stay_persists_undefined_witness :
    extractCommand (updText "/oops") ≠ ""
    ∧ ((UndefinedState, (0 : Nat)).1 = UndefinedState) :=
  ⟨by decide,
    claim1_command_stay_persists_undefined botA (updText "/oops") "menu" 0
      (Except.ok ("menu", 0)) (plainHandler "undef default" false) emptyTransition 0 false false
      (by decide) rfl rfl (by decide) (by decide) rfl (UndefinedState, 0) (by decide)⟩

/-- Claim C10: when a command whose keyword is not registered arrives, every
payload persisted by `HandleUpdate` equals the payload returned by the load
unchanged. -/
theorem claim10_unknown_command_payload_frame {T : Type} (b : BotFsm T) (u : Update)
    (s0 : String) (d0 : T) (loadRes : Except String (String × T)) (sh : StateHandler T)
    (sf rf : Bool)
    (hchat : getChatId u ≠ 0)
    (hload : loadRes = Except.ok (s0, d0))
    (hsh : b.configs (dispatchState (extractCommand u) (normalizeState s0)) = some sh)
    (hcmd : extractCommand u ≠ "")
    (hnone : b.commands (extractCommand u) = none) :
    ∀ p ∈ savedPairs (HandleUpdate b u loadRes sf rf).2, p.2 = d0 := by
  intro p hp
  have htd : dispatchedTransition b.commands u (extractCommand u) sh d0
      = (emptyTransition, d0) := by
    unfold dispatchedTransition
    rw [if_neg hcmd, hnone]
  rw [handleUpdate_eq_dispatch b u s0 d0 loadRes sh sf rf hchat hload hsh] at hp
  cases hcfg2 : b.configs (if emptyTransition.state = ""
      then dispatchState (extractCommand u) (normalizeState s0) else emptyTransition.state) with
  | none =>
    rw [dispatchAndResolve_eq_error b u (getChatId u)
      (dispatchState (extractCommand u) (normalizeState s0)) sh d0 sf rf
      emptyTransition d0 htd hcfg2] at hp
    simp [savedPairs] at hp
  | some ncfg =>
    rw [dispatchAndResolve_eq_commit b u (getChatId u)
      (dispatchState (extractCommand u) (normalizeState s0)) sh d0 sf rf
      emptyTransition d0 ncfg htd hcfg2] at hp
    have h2 := composeAndCommit_savedPairs (getChatId u) sh
      (resolveMessageConfig b.undefinedCommandMessageFn (extractCommand u) emptyTransition ncfg d0)
      (if emptyTransition.state = "" then dispatchState (extractCommand u) (normalizeState s0)
        else emptyTransition.state) d0 sf rf p hp
    rw [h2]

/-- Claim C10 witness: the claim applied to the `/oops` run on `botA` with
loaded payload `41`. -/
theorem claim10_unknown_command_payload_frame_witness :
    extractCommand (updText "/oops") ≠ ""
    ∧ ((UndefinedState, (41 : Nat)).2 = 41) :=
  ⟨by decide,
    claim10_unknown_command_payload_frame botA (updText "/oops") "menu" 41
      (Except.ok ("menu", 41)) (plainHandler "undef default" false) false false
      (by decide) rfl rfl (by decide) rfl (UndefinedState, 41) (by decide)⟩

/-- Claim C3 counterexample: the conversation was loaded in state `menu`,
whose handler declares `RemoveKeyboardAfter`; a registered command `/faq`
runs (dispatch handler is the `undefined` state's, which does not declare
removal) and replies without a removal flag — no keyboard removal is
triggered, although the claim requires one for the pre-event state `menu`. -/
theorem claim3_counterexample :
    Action.removeKeyboard ∉ (HandleUpdate botD (updText "/faq") (Except.ok ("menu", 0)) false false).2
    ∧ Option.map (fun h => h.removeKeyboardAfter) (botD.configs "menu") = some true
    ∧ sendTexts (HandleUpdate botD (updText "/faq") (Except.ok ("menu", 0)) false false).2 = ["x"] := by
  refine ⟨by decide, ?_, by decide⟩
  rfl

/-- Claim C3 (amended): `HandleUpdate` triggers the keyboard-removal
compensating action iff the dispatch-state handler (the pre-event state's
handler for non-command updates, the `Undefined` state's handler when the
event is a command) declares `RemoveKeyboardAfter`, or the resolved
`MessageConfig` has `RemoveKeyboard` set. -/
theorem claim3_keyboard_removal_rule {T : Type} (b : BotFsm T) (u : Update)
    (s0 : String) (d0 : T) (loadRes : Except String (String × T)) (sh : StateHandler T)
    (tr : Transition) (nd : T) (ncfg : StateHandler T) (sf rf : Bool)
    (hchat : getChatId u ≠ 0)
    (hload : loadRes = Except.ok (s0, d0))
    (hsh : b.configs (dispatchState (extractCommand u) (normalizeState s0)) = some sh)
    (htd : dispatchedTransition b.commands u (extractCommand u) sh d0 = (tr, nd))
    (hncfg : b.configs (if tr.state = "" then dispatchState (extractCommand u) (normalizeState s0)
        else tr.state) = some ncfg) :
    Action.removeKeyboard ∈ (HandleUpdate b u loadRes sf rf).2
      ↔ (sh.removeKeyboardAfter = true
        ∨ (resolveMessageConfig b.undefinedCommandMessageFn (extractCommand u) tr ncfg nd).removeKeyboard = true) := by
  rw [handleUpdate_eq_dispatch b u s0 d0 loadRes sh sf rf hchat hload hsh,
    dispatchAndResolve_eq_commit b u (getChatId u)
      (dispatchState (extractCommand u) (normalizeState s0)) sh d0 sf rf tr nd ncfg htd hncfg,
    composeAndCommit_removal_mem]
  simp [Bool.or_eq_true]

/-- Claim C3 witness: the amended rule applied to the `/faq` run on `botD`:
the dispatch handler (`undefined`) does not declare removal and the resolved
config carries no removal flag, so no removal action is in the trace. -/
theorem claim3_keyboard_removal_rule_witness :
    getChatId (updText "/faq") ≠ 0
    ∧ (Action.removeKeyboard ∈
        (HandleUpdate botD (updText "/faq") (Except.ok ("menu", 0)) false false).2
      ↔ ((plainHandler "u" false).removeKeyboardAfter = true
        ∨ (resolveMessageConfig botD.undefinedCommandMessageFn (extractCommand (updText "/faq"))
            { state := "", messageConfig := { emptyMessageConfig with text := "x" } }
            (plainHandler "u" false) 0).removeKeyboard = true)) :=
  ⟨by decide,
    claim3_keyboard_removal_rule botD (updText "/faq") "menu" 0 (Except.ok ("menu", 0))
      (plainHandler "u" false)
      { state := "", messageConfig := { emptyMessageConfig with text := "x" } } 0
      (plainHandler "u" false) false false
      (by decide) rfl rfl (by decide) rfl⟩

/-- Claim C4: `HandleUpdate` saves before it sends: in every trace the first
send (if any) is preceded by a save; when the save fails the call returns an
error and no composed message is sent; and every save carries the resolved
target state and the new payload. -/
theorem claim4_save_before_send {T : Type} (b : BotFsm T) (u : Update)
    (s0 : String) (d0 : T) (loadRes : Except String (String × T)) (sh : StateHandler T)
    (tr : Transition) (nd : T) (sf rf : Bool)
    (hchat : getChatId u ≠ 0)
    (hload : loadRes = Except.ok (s0, d0))
    (hsh : b.configs (dispatchState (extractCommand u) (normalizeState s0)) = some sh)
    (htd : dispatchedTransition b.commands u (extractCommand u) sh d0 = (tr, nd)) :
    noSendBeforeSave (HandleUpdate b u loadRes sf rf).2 = true
    ∧ (sf = true → (HandleUpdate b u loadRes sf rf).1 ≠ Except.ok ()
        ∧ sendTexts (HandleUpdate b u loadRes sf rf).2 = [])
    ∧ ∀ p ∈ savedPairs (HandleUpdate b u loadRes sf rf).2,
        p = ((if tr.state = "" then dispatchState (extractCommand u) (normalizeState s0)
          else tr.state), nd) := by
  rw [handleUpdate_eq_dispatch b u s0 d0 loadRes sh sf rf hchat hload hsh]
  cases hcfg2 : b.configs (if tr.state = ""
      then dispatchState (extractCommand u) (normalizeState s0) else tr.state) with
  | none =>
    rw [dispatchAndResolve_eq_error b u (getChatId u)
      (dispatchState (extractCommand u) (normalizeState s0)) sh d0 sf rf tr nd htd hcfg2]
    refine ⟨rfl, fun hsf => ⟨by simp, rfl⟩, ?_⟩
    intro p hp
    simp [savedPairs] at hp
  | some ncfg =>
    rw [dispatchAndResolve_eq_commit b u (getChatId u)
      (dispatchState (extractCommand u) (normalizeState s0)) sh d0 sf rf tr nd ncfg htd hcfg2]
    refine ⟨composeAndCommit_noSendBeforeSave _ _ _ _ _ _ _, fun hsf => ?_, ?_⟩
    · subst hsf
      exact composeAndCommit_saveFails _ _ _ _ _ _
    · exact composeAndCommit_savedPairs _ _ _ _ _ _ _

/-- Claim C4 witness: a failing save on a plain text update for `botA` in
state `menu` yields an error, no sends, and a save-first trace. -/
theorem claim4_save_before_send_witness :
    getChatId (updText "hello") ≠ 0
    ∧ noSendBeforeSave (HandleUpdate botA (updText "hello") (Except.ok ("menu", 0)) true false).2 = true
    ∧ ((HandleUpdate botA (updText "hello") (Except.ok ("menu", 0)) true false).1 ≠ Except.ok ()
      ∧ sendTexts (HandleUpdate botA (updText "hello") (Except.ok ("menu", 0)) true false).2 = []) :=
  ⟨by decide,
    (claim4_save_before_send botA (updText "hello") "menu" 0 (Except.ok ("menu", 0))
      (plainHandler "menu default" false) emptyTransition 0 true false
      (by decide) rfl rfl (by decide)).1,
    (claim4_save_before_send botA (updText "hello") "menu" 0 (Except.ok ("menu", 0))
      (plainHandler "menu default" false) emptyTransition 0 true false
      (by decide) rfl rfl (by decide)).2.1 rfl⟩

/-! ### Message-resolution characterization and independence lemmas -/

lemma resolveMessageConfig_nonEmpty {T : Type} (uFn : Option (T → MessageConfig))
    (command : String) (tr : Transition) (ncfg : StateHandler T) (nd : T)
    (h : tr.messageConfig.Empty = false) :
    resolveMessageConfig uFn command tr ncfg nd = tr.messageConfig := by
  unfold resolveMessageConfig
  simp [h]

lemma resolveMessageConfig_sub {T : Type} (f : T → MessageConfig) (command : String)
    (tr : Transition) (ncfg : StateHandler T) (nd : T)
    (he : tr.messageConfig.Empty = true) (hcmd : command ≠ "") (hst : tr.state = "") :
    resolveMessageConfig (some f) command tr ncfg nd = f nd := by
  unfold resolveMessageConfig
  rw [if_pos he, if_pos ⟨hcmd, hst⟩]
  rfl

lemma resolveMessageConfig_noSub {T : Type} (uFn : Option (T → MessageConfig))
    (command : String) (tr : Transition) (ncfg : StateHandler T) (nd : T)
    (he : tr.messageConfig.Empty = true)
    (h : command = "" ∨ tr.state ≠ "" ∨ uFn = none) :
    resolveMessageConfig uFn command tr ncfg nd = ncfg.messageFn nd := by
  unfold resolveMessageConfig
  rw [if_pos he]
  rcases h with h | h | h
  · rw [if_neg (fun hp => hp.1 h)]
  · rw [if_neg (fun hp => h hp.2)]
  · subst h
    by_cases hc : command ≠ "" ∧ tr.state = ""
    · rw [if_pos hc]
      rfl
    · rw [if_neg hc]

lemma setMessageFn_configs {T : Type} (b : BotFsm T) (st : String) (g : T → MessageConfig)
    (s : String) :
    (setMessageFn b st g).configs s
      = Option.map (fun h => if s = st then { h with messageFn := g } else h) (b.configs s) := by
  show (match b.configs s with
    | some h => some (if s = st then { h with messageFn := g } else h)
    | none => none)
    = Option.map (fun h => if s = st then { h with messageFn := g } else h) (b.configs s)
  cases b.configs s <;> rfl

lemma setRemoveKeyboardAfter_configs {T : Type} (b : BotFsm T) (st : String) (v : Bool)
    (s : String) :
    (setRemoveKeyboardAfter b st v).configs s
      = Option.map (fun h => if s = st then { h with removeKeyboardAfter := v } else h)
          (b.configs s) := by
  show (match b.configs s with
    | some h => some (if s = st then { h with removeKeyboardAfter := v } else h)
    | none => none)
    = Option.map (fun h => if s = st then { h with removeKeyboardAfter := v } else h) (b.configs s)
  cases b.configs s <;> rfl

lemma dispatchedTransition_transitionFn_congr {T : Type}
    (commands : String → Option (Update → T → Transition × T)) (u : Update) (command : String)
    (sh1 sh2 : StateHandler T) (d : T) (h : sh1.transitionFn = sh2.transitionFn) :
    dispatchedTransition commands u command sh1 d = dispatchedTransition commands u command sh2 d := by
  unfold dispatchedTransition
  rw [h]

lemma composeAndCommit_rka_congr {T : Type} (chatId : Int) (sh1 sh2 : StateHandler T)
    (mc : MessageConfig) (ns : String) (nd : T) (sf rf : Bool)
    (h : sh1.removeKeyboardAfter = sh2.removeKeyboardAfter) :
    composeAndCommit chatId sh1 mc ns nd sf rf = composeAndCommit chatId sh2 mc ns nd sf rf := by
  unfold composeAndCommit
  rw [h]

lemma goToMessageConfig_messageFn_congr {T : Type} (tr : Transition)
    (n1 n2 : StateHandler T) (d : T) (h : n1.messageFn = n2.messageFn) :
    goToMessageConfig tr n1 d = goToMessageConfig tr n2 d := by
  unfold goToMessageConfig
  rw [h]

lemma handleUpdate_messageFn_indep {T : Type} (b : BotFsm T) (st : String)
    (g : T → MessageConfig) (u : Update) (s0 : String) (d0 : T)
    (loadRes : Except String (String × T)) (sh : StateHandler T) (tr : Transition) (nd : T)
    (sf rf : Bool)
    (hchat : getChatId u ≠ 0)
    (hload : loadRes = Except.ok (s0, d0))
    (hsh : b.configs (dispatchState (extractCommand u) (normalizeState s0)) = some sh)
    (htd : dispatchedTransition b.commands u (extractCommand u) sh d0 = (tr, nd))
    (hne : tr.messageConfig.Empty = false) :
    HandleUpdate (setMessageFn b st g) u loadRes sf rf = HandleUpdate b u loadRes sf rf := by
  have hsh2 : (setMessageFn b st g).configs (dispatchState (extractCommand u) (normalizeState s0))
      = some (if dispatchState (extractCommand u) (normalizeState s0) = st
          then { sh with messageFn := g } else sh) := by
    rw [setMessageFn_configs, hsh]
    rfl
  have htf : (if dispatchState (extractCommand u) (normalizeState s0) = st
      then { sh with messageFn := g } else sh).transitionFn = sh.transitionFn := by
    by_cases hst : dispatchState (extractCommand u) (normalizeState s0) = st <;> simp [hst]
  have hrka : (if dispatchState (extractCommand u) (normalizeState s0) = st
      then { sh with messageFn := g } else sh).removeKeyboardAfter = sh.removeKeyboardAfter := by
    by_cases hst : dispatchState (extractCommand u) (normalizeState s0) = st <;> simp [hst]
  have htd2 : dispatchedTransition (setMessageFn b st g).commands u (extractCommand u)
      (if dispatchState (extractCommand u) (normalizeState s0) = st
        then { sh with messageFn := g } else sh) d0 = (tr, nd) := by
    show dispatchedTransition b.commands u (extractCommand u) _ d0 = (tr, nd)
    rw [dispatchedTransition_transitionFn_congr b.commands u (extractCommand u) _ sh d0 htf, htd]
  rw [handleUpdate_eq_dispatch (setMessageFn b st g) u s0 d0 loadRes _ sf rf hchat hload hsh2,
      handleUpdate_eq_dispatch b u s0 d0 loadRes sh sf rf hchat hload hsh]
  cases hcfg2 : b.configs (if tr.state = ""
      then dispatchState (extractCommand u) (normalizeState s0) else tr.state) with
  | none =>
    have hcfg2b : (setMessageFn b st g).configs (if tr.state = ""
        then dispatchState (extractCommand u) (normalizeState s0) else tr.state) = none := by
      rw [setMessageFn_configs, hcfg2]
      rfl
    rw [dispatchAndResolve_eq_error (setMessageFn b st g) u (getChatId u) _ _ d0 sf rf tr nd
        htd2 hcfg2b,
      dispatchAndResolve_eq_error b u (getChatId u) _ sh d0 sf rf tr nd htd hcfg2]
  | some ncfg =>
    have hcfg2b : (setMessageFn b st g).configs (if tr.state = ""
        then dispatchState (extractCommand u) (normalizeState s0) else tr.state)
        = some (if (if tr.state = ""
            then dispatchState (extractCommand u) (normalizeState s0) else tr.state) = st
          then { ncfg with messageFn := g } else ncfg) := by
      rw [setMessageFn_configs, hcfg2]
      rfl
    rw [dispatchAndResolve_eq_commit (setMessageFn b st g) u (getChatId u) _ _ d0 sf rf tr nd _
        htd2 hcfg2b,
      dispatchAndResolve_eq_commit b u (getChatId u) _ sh d0 sf rf tr nd ncfg htd hcfg2]
    rw [resolveMessageConfig_nonEmpty _ _ _ _ _ hne, resolveMessageConfig_nonEmpty _ _ _ _ _ hne]
    exact composeAndCommit_rka_congr (getChatId u) _ sh tr.messageConfig _ nd sf rf hrka

/-- Claim C2 counterexample: the command `/faq` is registered on `botB` and
its handler runs, returning the empty transition; the unknown-command
provider's `UNK` message is nevertheless the one sent, contradicting the
claim that a registered command whose handler ran is never given the
unknown-command message. -/
theorem claim2_counterexample :
    Option.isSome (botB.commands "faq") = true
    ∧ sendTexts (HandleUpdate botB (updText "/faq") (Except.ok ("", 0)) false false).2 = ["UNK"]
    ∧ ("UNK" : String) ≠ "undef default" := by
  refine ⟨?_, by decide, by decide⟩
  rfl

/-- Claim C2 (amended): with an unknown-command provider configured, for a
command event the provider's message is what gets composed exactly when the
Transition's nextStateId is empty AND the Transition's own MessageConfig is
empty — whether or not the command keyword was registered; otherwise the
transition's own text (when non-empty) or the target state's default is
composed. -/
theorem claim2_unknown_message_substitution {T : Type} (b : BotFsm T) (u : Update)
    (s0 : String) (d0 : T) (loadRes : Except String (String × T)) (sh : StateHandler T)
    (tr : Transition) (nd : T) (ncfg : StateHandler T) (f : T → MessageConfig) (sf rf : Bool)
    (hchat : getChatId u ≠ 0)
    (hload : loadRes = Except.ok (s0, d0))
    (hsh : b.configs (dispatchState (extractCommand u) (normalizeState s0)) = some sh)
    (htd : dispatchedTransition b.commands u (extractCommand u) sh d0 = (tr, nd))
    (hncfg : b.configs (if tr.state = "" then dispatchState (extractCommand u) (normalizeState s0)
        else tr.state) = some ncfg)
    (hcmd : extractCommand u ≠ "")
    (hf : b.undefinedCommandMessageFn = some f) :
    sendTexts (HandleUpdate b u loadRes sf rf).2 = []
    ∨ (sendTexts (HandleUpdate b u loadRes sf rf).2).head?
        = some (if tr.state = "" ∧ tr.messageConfig.Empty = true then (f nd).text
            else if tr.messageConfig.Empty = true then (ncfg.messageFn nd).text
            else tr.messageConfig.text) := by
  rw [handleUpdate_eq_dispatch b u s0 d0 loadRes sh sf rf hchat hload hsh,
    dispatchAndResolve_eq_commit b u (getChatId u)
      (dispatchState (extractCommand u) (normalizeState s0)) sh d0 sf rf tr nd ncfg htd hncfg]
  rcases composeAndCommit_sendTexts (getChatId u) sh
      (resolveMessageConfig b.undefinedCommandMessageFn (extractCommand u) tr ncfg nd)
      (if tr.state = "" then dispatchState (extractCommand u) (normalizeState s0) else tr.state)
      nd sf rf with h | h
  · left
    exact h
  · right
    rw [h]
    have hmc : (resolveMessageConfig b.undefinedCommandMessageFn (extractCommand u) tr ncfg nd).text
        = (if tr.state = "" ∧ tr.messageConfig.Empty = true then (f nd).text
           else if tr.messageConfig.Empty = true then (ncfg.messageFn nd).text
           else tr.messageConfig.text) := by
      rw [hf]
      by_cases he : tr.messageConfig.Empty = true
      · by_cases hst : tr.state = ""
        · rw [resolveMessageConfig_sub f _ _ _ _ he hcmd hst, if_pos ⟨hst, he⟩]
        · rw [resolveMessageConfig_noSub _ _ _ _ _ he (Or.inr (Or.inl hst)),
            if_neg (fun hp => hst hp.1), if_pos he]
      · have he2 : tr.messageConfig.Empty = false := Bool.eq_false_iff.mpr he
        rw [resolveMessageConfig_nonEmpty _ _ _ _ _ he2,
          if_neg (fun hp => he hp.2), if_neg he]
    rw [List.head?_cons, hmc]

/-- Claim C2 witness: the amended rule applied to the registered `/faq`
command on `botB` (the run of `claim2_counterexample`). -/
theorem claim2_unknown_message_substitution_witness :
    extractCommand (updText "/faq") ≠ ""
    ∧ (sendTexts (HandleUpdate botB (updText "/faq") (Except.ok ("", 0)) false false).2 = []
      ∨ (sendTexts (HandleUpdate botB (updText "/faq") (Except.ok ("", 0)) false false).2).head?
          = some (if emptyTransition.state = "" ∧ emptyTransition.messageConfig.Empty = true
              then ((fun _ : Nat => { emptyMessageConfig with text := "UNK" }) 0).text
              else if emptyTransition.messageConfig.Empty = true
              then ((plainHandler "undef default" false).messageFn 0).text
              else emptyTransition.messageConfig.text)) :=
  ⟨by decide,
    claim2_unknown_message_substitution botB (updText "/faq") "" 0 (Except.ok ("", 0))
      (plainHandler "undef default" false) emptyTransition 0
      (plainHandler "undef default" false)
      (fun _ => { emptyMessageConfig with text := "UNK" }) false false
      (by decide) rfl rfl (by decide) rfl (by decide) rfl⟩

/-- Claim C5 counterexample: the registered command `/go` on `botC` returns a
Transition with an empty MessageConfig, yet the composed primary text is the
unknown-command provider's `SPECIAL`, not the resolved target state's
`MessageFn` output `TARGETDEFAULT`, contradicting the claim's second clause. -/
theorem claim5_counterexample :
    (sendTexts (HandleUpdate botC (updText "/go") (Except.ok ("", 0)) false false).2).head?
      = some "SPECIAL"
    ∧ Option.map (fun h => (h.messageFn 0).text) (botC.configs UndefinedState)
        = some "TARGETDEFAULT"
    ∧ ("SPECIAL" : String) ≠ "TARGETDEFAULT"
    ∧ (dispatchedTransition botC.commands (updText "/go") (extractCommand (updText "/go"))
        (plainHandler "TARGETDEFAULT" false) 0).1.messageConfig.Empty = true := by
  refine ⟨by decide, ?_, by decide, by decide⟩
  rfl

/-- Claim C5 (amended): if the Transition's MessageConfig is non-empty, the
composed primary text equals that config's Text verbatim and no state's
`MessageFn` is ever invoked (replacing any state's `MessageFn` does not
change the outcome); if it is empty, the composed primary text equals the
resolved target state's `MessageFn` applied to the new payload, except when
the event was a command, the transition's nextStateId was empty, and an
unknown-command provider is configured (then that provider is used
instead). -/
theorem claim5_message_override_law {T : Type} (b : BotFsm T) (u : Update)
    (s0 : String) (d0 : T) (loadRes : Except String (String × T)) (sh : StateHandler T)
    (tr : Transition) (nd : T) (ncfg : StateHandler T) (sf rf : Bool)
    (hchat : getChatId u ≠ 0)
    (hload : loadRes = Except.ok (s0, d0))
    (hsh : b.configs (dispatchState (extractCommand u) (normalizeState s0)) = some sh)
    (htd : dispatchedTransition b.commands u (extractCommand u) sh d0 = (tr, nd))
    (hncfg : b.configs (if tr.state = "" then dispatchState (extractCommand u) (normalizeState s0)
        else tr.state) = some ncfg) :
    (tr.messageConfig.Empty = false →
      (sendTexts (HandleUpdate b u loadRes sf rf).2 = []
        ∨ (sendTexts (HandleUpdate b u loadRes sf rf).2).head? = some tr.messageConfig.text)
      ∧ ∀ (st : String) (g : T → MessageConfig),
          HandleUpdate (setMessageFn b st g) u loadRes sf rf = HandleUpdate b u loadRes sf rf)
    ∧ (tr.messageConfig.Empty = true →
        (extractCommand u = "" ∨ tr.state ≠ "" ∨ b.undefinedCommandMessageFn = none) →
        (sendTexts (HandleUpdate b u loadRes sf rf).2 = []
          ∨ (sendTexts (HandleUpdate b u loadRes sf rf).2).head?
              = some ((ncfg.messageFn nd).text))) := by
  constructor
  · intro hne
    constructor
    · rw [handleUpdate_eq_dispatch b u s0 d0 loadRes sh sf rf hchat hload hsh,
        dispatchAndResolve_eq_commit b u (getChatId u)
          (dispatchState (extractCommand u) (normalizeState s0)) sh d0 sf rf tr nd ncfg htd hncfg,
        resolveMessageConfig_nonEmpty _ _ _ _ _ hne]
      rcases composeAndCommit_sendTexts (getChatId u) sh tr.messageConfig
          (if tr.state = "" then dispatchState (extractCommand u) (normalizeState s0) else tr.state)
          nd sf rf with h | h
      · left
        exact h
      · right
        rw [h, List.head?_cons]
    · intro st g
      exact handleUpdate_messageFn_indep b st g u s0 d0 loadRes sh tr nd sf rf
        hchat hload hsh htd hne
  · intro he hnosub
    rw [handleUpdate_eq_dispatch b u s0 d0 loadRes sh sf rf hchat hload hsh,
      dispatchAndResolve_eq_commit b u (getChatId u)
        (dispatchState (extractCommand u) (normalizeState s0)) sh d0 sf rf tr nd ncfg htd hncfg,
      resolveMessageConfig_noSub _ _ _ _ _ he hnosub]
    rcases composeAndCommit_sendTexts (getChatId u) sh (ncfg.messageFn nd)
        (if tr.state = "" then dispatchState (extractCommand u) (normalizeState s0) else tr.state)
        nd sf rf with h | h
    · left
      exact h
    · right
      rw [h, List.head?_cons]

/-- Claim C5 witness: the empty-config clause applied to a plain text update
on `botA` in state `menu` (no command), composing the target default. -/
theorem claim5_message_override_law_witness :
    emptyTransition.messageConfig.Empty = true
    ∧ (sendTexts (HandleUpdate botA (updText "hello") (Except.ok ("menu", 0)) false false).2 = []
      ∨ (sendTexts (HandleUpdate botA (updText "hello") (Except.ok ("menu", 0)) false false).2).head?
          = some (((plainHandler "menu default" false).messageFn 0).text)) :=
  ⟨by decide,
    (claim5_message_override_law botA (updText "hello") "menu" 0 (Except.ok ("menu", 0))
      (plainHandler "menu default" false) emptyTransition 0
      (plainHandler "menu default" false) false false
      (by decide) rfl rfl (by decide) rfl).2 (by decide) (Or.inl (by decide))⟩

/-- Claim C7: `GoTo` errors without saving or sending when the target state
has no config; otherwise it saves exactly the pair (target state, data)
before any send (and a failing save yields an error with no sends); the
keyboard-removal action is triggered iff the resolved MessageConfig's
RemoveKeyboard flag is set; and no state's `RemoveKeyboardAfter` preference
is ever consulted (changing any of them does not change the outcome). -/
theorem claim7_goto {T : Type} (b : BotFsm T) (chatId : Int) (tr : Transition) (d : T)
    (sf rf : Bool) :
    (b.configs tr.state = none →
      GoTo b chatId tr d sf rf = (Except.error (FsmError.nextStateConfigNotFound tr.state), []))
    ∧ noSendBeforeSave (GoTo b chatId tr d sf rf).2 = true
    ∧ (∀ p ∈ savedPairs (GoTo b chatId tr d sf rf).2, p = (tr.state, d))
    ∧ (∀ ncfg, b.configs tr.state = some ncfg → sf = false →
        (Action.removeKeyboard ∈ (GoTo b chatId tr d sf rf).2
          ↔ (goToMessageConfig tr ncfg d).removeKeyboard = true))
    ∧ (sf = true → (GoTo b chatId tr d sf rf).1 ≠ Except.ok ()
        ∧ sendTexts (GoTo b chatId tr d sf rf).2 = [])
    ∧ ∀ (st : String) (v : Bool),
        GoTo (setRemoveKeyboardAfter b st v) chatId tr d sf rf = GoTo b chatId tr d sf rf := by
  cases hc : b.configs tr.state with
  | none =>
    refine ⟨fun _ => by simp [GoTo, hc], ?_, ?_, ?_, ?_, ?_⟩
    · simp [GoTo, hc, noSendBeforeSave]
    · intro p hp
      simp only [GoTo, hc] at hp
      simp [savedPairs] at hp
    · intro ncfg hsome
      exact absurd hsome (by simp)
    · intro hsf
      refine ⟨by simp [GoTo, hc], by simp [GoTo, hc, sendTexts]⟩
    · intro st v
      have hc2 : (setRemoveKeyboardAfter b st v).configs tr.state = none := by
        rw [setRemoveKeyboardAfter_configs, hc]
        rfl
      simp [GoTo, hc, hc2]
  | some ncfg2 =>
    refine ⟨fun hnone => absurd hnone (by simp), ?_, ?_, ?_, ?_, ?_⟩
    · simp only [GoTo, hc]
      split_ifs <;> simp [noSendBeforeSave]
    · intro p hp
      simp only [GoTo, hc] at hp
      split_ifs at hp
        <;> simp_all [savedPairs, savedPairs_append, savedPairs_map_send,
              getStateMessageConfigs, savedPairs_map_send_comp]
    · intro ncfg3 hsome hsf
      have hn : ncfg2 = ncfg3 := by
        injection hsome
      subst hn
      subst hsf
      simp only [GoTo, hc]
      by_cases hk : (goToMessageConfig tr ncfg2 d).removeKeyboard = true
        <;> by_cases hrf : rf = true
        <;> simp [hk, hrf]
    · intro hsf
      subst hsf
      refine ⟨by simp [GoTo, hc], by simp [GoTo, hc, sendTexts]⟩
    · intro st v
      have hc2 : (setRemoveKeyboardAfter b st v).configs tr.state
          = some (if tr.state = st then { ncfg2 with removeKeyboardAfter := v } else ncfg2) := by
        rw [setRemoveKeyboardAfter_configs, hc]
        rfl
      have hmf : (if tr.state = st then { ncfg2 with removeKeyboardAfter := v }
          else ncfg2).messageFn = ncfg2.messageFn := by
        by_cases h2 : tr.state = st <;> simp [h2]
      simp only [GoTo, hc, hc2]
      rw [goToMessageConfig_messageFn_congr tr _ ncfg2 d hmf]

/-- Claim C7 witness: a `GoTo` run to `menu` on `botA`: the save-first trace
and the removal-iff-flag rule at the resolved config. -/
theorem claim7_goto_witness :
    botA.configs "menu" = some (plainHandler "menu default" false)
    ∧ noSendBeforeSave (GoTo botA 5 (Transition.mk "menu" emptyMessageConfig) 0 false false).2 = true
    ∧ (Action.removeKeyboard ∈ (GoTo botA 5 (Transition.mk "menu" emptyMessageConfig) 0 false false).2
        ↔ (goToMessageConfig (Transition.mk "menu" emptyMessageConfig)
            (plainHandler "menu default" false) 0).removeKeyboard = true) :=
  ⟨rfl,
    (claim7_goto botA 5 (Transition.mk "menu" emptyMessageConfig) 0 false false).2.1,
    (claim7_goto botA 5 (Transition.mk "menu" emptyMessageConfig) 0 false false).2.2.2.1
      (plainHandler "menu default" false) rfl rfl⟩

/-- Claim C6 counterexample: the text `/start\tnow` contains a
whitespace-separated argument (separated by a tab), so by the claim it must
not classify as a command, yet `extractCommand` classifies it as the command
`start\tnow`; and the text `/`, which starts with the marker and carries no
argument at all, is by the claim a command, yet `extractCommand` rejects it
(empty keyword). -/
theorem claim6_counterexample :
    extractCommand updTab = "start\tnow" ∧ ("start\tnow" : String) ≠ ""
    ∧ extractCommand updSlash = "" := by
  decide

/-- Claim C6 (amended): an update classifies as a command iff it carries a
message whose text starts with the marker `/`, contains no space character
U+0020 after the marker (other whitespace such as tab or newline is not a
separator), and has at least one character after the marker; the keyword is
everything after the marker. In particular `/start` classifies as command
`start` with dispatch state forced to `Undefined`, and `/start now` does not
classify as a command. -/
theorem claim6_command_classification :
    (∀ (m : Message) (oc : Option CallbackQuery),
      extractCommand { message := some m, callbackQuery := oc } ≠ ""
        ↔ ∃ rest, m.text.data = '/' :: rest ∧ rest.contains ' ' = false ∧ rest ≠ [])
    ∧ (∀ (m : Message) (oc : Option CallbackQuery) (rest : List Char),
        m.text.data = '/' :: rest → rest.contains ' ' = false →
        extractCommand { message := some m, callbackQuery := oc } = String.mk rest)
    ∧ (∀ (oc : Option CallbackQuery), extractCommand { message := none, callbackQuery := oc } = "")
    ∧ extractCommand updStart = "start"
    ∧ dispatchState (extractCommand updStart) "menu" = UndefinedState
    ∧ extractCommand updStartNow = "" := by
  refine ⟨?_, ?_, fun oc => rfl, by decide, by decide, by decide⟩
  · intro m oc
    obtain ⟨mchat, mtext⟩ := m
    obtain ⟨mdata⟩ := mtext
    cases mdata with
    | nil => simp [extractCommand]
    | cons c rest =>
      have hred : extractCommand ⟨some ⟨mchat, ⟨c :: rest⟩⟩, oc⟩
          = if c = '/' ∧ rest.contains ' ' = false then String.mk rest else "" := rfl
      rw [hred]
      by_cases hc : c = '/' ∧ rest.contains ' ' = false
      · obtain ⟨hc1, hc2⟩ := hc
        subst hc1
        rw [if_pos ⟨rfl, hc2⟩]
        constructor
        · intro hne
          refine ⟨rest, rfl, hc2, ?_⟩
          intro hrest
          subst hrest
          exact hne (by decide)
        · rintro ⟨rest2, hr2, _, hne2⟩
          have hr3 : rest2 = rest := ((List.cons.injEq _ _ _ _).mp hr2).2.symm
          subst hr3
          intro hmk
          apply hne2
          have h3 : (String.mk rest2).data = ("" : String).data := by rw [hmk]
          have h4 : ("" : String).data = [] := by decide
          rw [h4] at h3
          exact h3
      · rw [if_neg hc]
        simp only [ne_eq, not_true_eq_false, false_iff]
        rintro ⟨rest2, hr2, hsp2, _⟩
        have h1 := (List.cons.injEq _ _ _ _).mp hr2
        exact hc ⟨h1.1, h1.2 ▸ hsp2⟩
  · intro m oc rest hdata hsp
    obtain ⟨mchat, mtext⟩ := m
    obtain ⟨mdata⟩ := mtext
    have hd2 : mdata = '/' :: rest := hdata
    subst hd2
    have hred : extractCommand ⟨some ⟨mchat, ⟨'/' :: rest⟩⟩, oc⟩
        = if ('/' : Char) = '/' ∧ rest.contains ' ' = false then String.mk rest else "" := rfl
    rw [hred]
    exact if_pos ⟨rfl, hsp⟩

/-- Claim C6 witness: the amended characterization instantiated at `/start`. -/
theorem claim6_command_classification_witness :
    ("/start".data = '/' :: "start".data)
    ∧ ("start".data.contains ' ' = false)
    ∧ extractCommand updStart = String.mk "start".data := by
  refine ⟨by decide, by decide, ?_⟩
  exact claim6_command_classification.2.1 { chat := some { id := 7 }, text := "/start" } none
    "start".data (by decide) (by decide)

end Fsm
